import Mathlib

/-!
Shallow embedding of the rule-execution core of the `biome` analyzer, covering
the two rules in the repository:

* `UseHeadingContent` (crates/biome_js_analyze/src/analyzers/a11y/use_heading_content.rs)
* `NoDangerouslySetInnerHtmlWithChildren`
  (crates/biome_js_analyze/src/semantic_analyzers/security/no_dangerously_set_inner_html_with_children.rs)

The rule bodies (`run`, `diagnostic`, `has_valid_heading_content`,
`AnyJsCreateElement::{has_children, find_dangerous_prop, find_children_prop}`)
are translated directly from the source.  Helper functions that the source
calls but whose code lives in other crates of the repository
(`biome_js_syntax::jsx_ext`, `crate::react`) are modelled from the spec and
marked as such in their doc comments.
-/

set_option autoImplicit false

namespace Biome

/-- A text range into the analyzed source snapshot: start and end offsets. -/
structure TextRange where
  start : Nat
  stop : Nat
deriving DecidableEq, Repr

/-- Modelled from the spec: the result of folding an expression into a
constant (spec section 3, "Static Value"); the concrete `StaticValue` type
lives in `biome_js_syntax`, outside `src/`. -/
inductive StaticValue where
  | str (s : String)
  | num (n : Int)
  | boolean (b : Bool)
  | null
  | undefined
deriving DecidableEq, Repr

/-- Modelled from the spec (section 4.1, `isFalsy`): empty string, the string
form of `false`, numeric zero, boolean false and null/undefined equivalents
are falsy; everything else is not. -/
def StaticValue.is_falsy : StaticValue → Bool
  | StaticValue.str s => s == "" || s == "false"
  | StaticValue.num n => n == 0
  | StaticValue.boolean b => !b
  | StaticValue.null => true
  | StaticValue.undefined => true

/-- The initializer of a JSX attribute: either foldable to a static value or a
dynamic expression that cannot be folded. -/
inductive AttrInit where
  | static (v : StaticValue)
  | dynamic
deriving DecidableEq, Repr

/-- A named JSX attribute: name, optional initializer, and its text range. -/
structure JsxAttribute where
  name : String
  init : Option AttrInit
  range : TextRange
deriving DecidableEq, Repr

/-- Modelled from the spec: `JsxAttribute::as_static_value` (in
`biome_js_syntax`, outside `src/`) folds the initializer to a constant when
possible; absent initializers and dynamic expressions yield nothing. -/
def JsxAttribute.as_static_value (a : JsxAttribute) : Option StaticValue :=
  match a.init with
  | some (AttrInit.static v) => some v
  | _ => none

/-- A slot in an element's attribute list: a named attribute or a spread. -/
inductive JsxAttributeItem where
  | attr (a : JsxAttribute)
  | spread
deriving DecidableEq, Repr

/-- Modelled from the spec (section 4.1, `attributeByName`): linear scan of
the attribute list in source order, first exact case-sensitive name match;
spread slots carry no name. -/
def find_attribute_by_name : List JsxAttributeItem → String → Option JsxAttribute
  | [], _ => none
  | JsxAttributeItem.attr a :: rest, nm =>
      if a.name = nm then some a else find_attribute_by_name rest nm
  | JsxAttributeItem.spread :: rest, nm => find_attribute_by_name rest nm

/-- Modelled from the spec (section 4.1, `hasSpreadProp`): true iff some
attribute slot is a spread expression. -/
def has_spread_prop (attrs : List JsxAttributeItem) : Bool :=
  attrs.any fun item =>
    match item with
    | JsxAttributeItem.spread => true
    | JsxAttributeItem.attr _ => false

/-- Modelled from the spec (section 4.1, `hasTruthyAttribute`): true iff the
named attribute exists and (bare presence, a non-foldable value, or a static
value that is not falsy). -/
def has_truthy_attribute (attrs : List JsxAttributeItem) (nm : String) : Bool :=
  match find_attribute_by_name attrs nm with
  | none => false
  | some a =>
    match a.as_static_value with
    | none => true
    | some v => !v.is_falsy

/-- The name node of a JSX element: a plain name whose `name_value_token` is
available, or a member/namespace name where it is not. -/
inductive AnyJsxElementName where
  | named (token : String)
  | complex
deriving DecidableEq, Repr

/-- The trimmed token text of a plain element name; absent for member and
namespace names. -/
def AnyJsxElementName.name_value_token : AnyJsxElementName → Option String
  | AnyJsxElementName.named tok => some tok
  | AnyJsxElementName.complex => none

/-- A direct child of a JSX element: a text chunk or a nested element (with
its own attribute list), each with a text range. -/
inductive JsxChild where
  | text (s : String) (range : TextRange)
  | element (attrs : List JsxAttributeItem) (range : TextRange)
deriving DecidableEq, Repr

/-- The text range of a child node. -/
def JsxChild.range : JsxChild → TextRange
  | JsxChild.text _ r => r
  | JsxChild.element _ r => r

/-- Modelled from the spec (section 4.1): a child is hidden from the
accessibility tree iff it is an element carrying a truthy aria-hidden
attribute; text is never hidden. -/
def JsxChild.is_hidden : JsxChild → Bool
  | JsxChild.text _ _ => false
  | JsxChild.element attrs _ => has_truthy_attribute attrs "aria-hidden"

/-- Modelled from the spec (section 4.1, `hasAccessibleChild`): iterate the
children in order; content is accessible the moment at least one child (text
or element) is not hidden; an empty child list has no accessible content. -/
def has_accessible_child (children : List JsxChild) : Bool :=
  children.any fun c => !c.is_hidden

/-- A JSX opening element: its (fallible) name and its attribute list. -/
structure JsxOpeningElementNode where
  name : Option AnyJsxElementName
  attrs : List JsxAttributeItem
deriving DecidableEq, Repr

/-- `AnyJsxElement` from `biome_js_syntax::jsx_ext`: a JSX opening element
(paired here with the children of its parent `JsxElement`, which the rule
reaches through parent navigation) or a self-closing element. -/
inductive AnyJsxElement where
  | jsxOpeningElement (op : JsxOpeningElementNode) (children : List JsxChild)
  | jsxSelfClosingElement (name : Option AnyJsxElementName) (attrs : List JsxAttributeItem)
deriving DecidableEq, Repr

/-- The element's (fallible) name node, as `node.name().ok()`. -/
def AnyJsxElement.name : AnyJsxElement → Option AnyJsxElementName
  | AnyJsxElement.jsxOpeningElement op _ => op.name
  | AnyJsxElement.jsxSelfClosingElement nm _ => nm

/-- The element's attribute list. -/
def AnyJsxElement.attrs : AnyJsxElement → List JsxAttributeItem
  | AnyJsxElement.jsxOpeningElement op _ => op.attrs
  | AnyJsxElement.jsxSelfClosingElement _ a => a

/-- The element's direct descendants: the children list for an opening
element, nothing for a self-closing element. -/
def AnyJsxElement.directChildren : AnyJsxElement → List JsxChild
  | AnyJsxElement.jsxOpeningElement _ children => children
  | AnyJsxElement.jsxSelfClosingElement _ _ => []

/-- `HEADING_ELEMENTS` from use_heading_content.rs. -/
def HEADING_ELEMENTS : List String := ["h1", "h2", "h3", "h4", "h5", "h6"]

/-- `has_valid_heading_content` from use_heading_content.rs: a
dangerouslySetInnerHTML attribute, a children attribute with an initializer
whose static value is unknown or not falsy, or a spread prop. -/
def has_valid_heading_content (node : AnyJsxElement) : Bool :=
  (find_attribute_by_name node.attrs "dangerouslySetInnerHTML").isSome
  || (match find_attribute_by_name node.attrs "children" with
      | none => false
      | some a =>
        if a.init.isNone then false
        else
          match a.as_static_value with
          | none => true
          | some v => !v.is_falsy)
  || has_spread_prop node.attrs

namespace UseHeadingContent

/-- `UseHeadingContent::run` from use_heading_content.rs: fetch the name token
(failures exit with no signal); for heading tags, signal on a truthy
aria-hidden, exit on valid heading content, and otherwise signal unless an
opening element has an accessible child. -/
def run (node : AnyJsxElement) : Option Unit :=
  match node.name with
  | none => none
  | some n =>
    match n.name_value_token with
    | none => none
    | some nm =>
      if HEADING_ELEMENTS.contains nm then
        if has_truthy_attribute node.attrs "aria-hidden" then some ()
        else if has_valid_heading_content node then none
        else
          match node with
          | AnyJsxElement.jsxOpeningElement _ children =>
            if !has_accessible_child children then some () else none
          | AnyJsxElement.jsxSelfClosingElement _ _ => some ()
      else none

end UseHeadingContent

/-- A property member of an object-literal expression: name and text range. -/
structure JsPropertyObjectMember where
  name : String
  range : TextRange
deriving DecidableEq, Repr

/-- Modelled from the spec (section 4.2): `findPropByName` scans the props
object members the same way `attributeByName` scans a tag's attributes. -/
def find_member_by_name : List JsPropertyObjectMember → String → Option JsPropertyObjectMember
  | [], _ => none
  | m :: rest, nm => if m.name = nm then some m else find_member_by_name rest nm

/-- A positional argument of a call expression: an object-literal-like
argument (with its members) or any other expression; both carry a range. -/
inductive JsArgument where
  | objectExpr (members : List JsPropertyObjectMember) (range : TextRange)
  | other (range : TextRange)
deriving DecidableEq, Repr

/-- The text range of a call argument. -/
def JsArgument.range : JsArgument → TextRange
  | JsArgument.objectExpr _ r => r
  | JsArgument.other r => r

/-- The trimmed text range of a non-empty argument-list node: from the start
of the first argument to the end of the last. -/
def argListTrimmedRange : List JsArgument → TextRange
  | [] => TextRange.mk 0 0
  | a :: rest => TextRange.mk a.range.start ((rest.getLast?.getD a).range.stop)

/-- The trimmed text range of a non-empty JSX child-list node: from the start
of the first child to the end of the last. -/
def childListTrimmedRange : List JsxChild → TextRange
  | [] => TextRange.mk 0 0
  | c :: rest => TextRange.mk c.range.start ((rest.getLast?.getD c).range.stop)

/-- A call expression: the callee's name text and its argument list. -/
structure JsCallExpression where
  callee : String
  arguments : List JsArgument
deriving DecidableEq, Repr

/-- Modelled from the spec (section 6): the declaration an identifier
resolves to — the expected imported/global factory binding, or some other
local binding (e.g. a shadowing local function). -/
inductive Declaration where
  | reactFactoryImport
  | localBinding
deriving DecidableEq, Repr

/-- Modelled from the spec (section 6): the semantic overlay, consumed
through `resolveIdentifier(node) -> optional Declaration`. -/
structure SemanticModel where
  resolveIdentifier : String → Option Declaration

/-- Modelled from the spec (section 4.2): the callee name texts recognized as
the element-factory API. -/
def factoryCalleeNames : List String := ["createElement", "React.createElement"]

/-- `ReactCreateElementCall` from `crate::react` (outside `src/`), modelled
from the spec: a resolved view over a factory call exposing `element_type`
(tag), `props` (an object-literal argument, optionally absent) and
`children` (remaining positional arguments, optionally absent). -/
structure ReactCreateElementCall where
  element_type : JsArgument
  props : Option (List JsPropertyObjectMember)
  children : Option (List JsArgument)
deriving DecidableEq, Repr

namespace ReactCreateElementCall

/-- Modelled from the spec (section 4.2): resolution fails silently (absent,
not an error) when the callee name does not match the factory API, the call
has too few arguments, or the semantic overlay does not resolve the callee
to the expected factory binding; on success the positional arguments are
exposed as tag, props and children. -/
def from_call_expression (call : JsCallExpression) (model : SemanticModel) :
    Option ReactCreateElementCall :=
  if factoryCalleeNames.contains call.callee then
    match model.resolveIdentifier call.callee with
    | some Declaration.reactFactoryImport =>
      match call.arguments with
      | [] => none
      | tag :: rest =>
        some
          { element_type := tag
            props :=
              match rest with
              | JsArgument.objectExpr members _ :: _ => some members
              | _ => none
            children :=
              match rest.drop 1 with
              | [] => none
              | cs => some cs }
    | _ => none
  else none

/-- Modelled from the spec (section 4.2): scan the resolved props object's
members by name; absent when there is no props object or no such member. -/
def find_prop_by_name (c : ReactCreateElementCall) (nm : String) :
    Option JsPropertyObjectMember :=
  match c.props with
  | none => none
  | some members => find_member_by_name members nm

end ReactCreateElementCall

/-- `DangerousProp` from no_dangerously_set_inner_html_with_children.rs: a
JSX attribute or an object property member. -/
inductive DangerousProp where
  | jsxAttribute (a : JsxAttribute)
  | jsPropertyObjectMember (m : JsPropertyObjectMember)
deriving DecidableEq, Repr

/-- The text range of a dangerous prop, whichever variant is active. -/
def DangerousProp.range : DangerousProp → TextRange
  | DangerousProp.jsxAttribute a => a.range
  | DangerousProp.jsPropertyObjectMember m => m.range

/-- `ChildrenKind` from no_dangerously_set_inner_html_with_children.rs:
children found as a prop or as direct descendants, each carrying a range. -/
inductive ChildrenKind where
  | prop (range : TextRange)
  | direct (range : TextRange)
deriving DecidableEq, Repr

/-- `ChildrenKind::range` from the source: the carried range, either way. -/
def ChildrenKind.range : ChildrenKind → TextRange
  | ChildrenKind.prop r => r
  | ChildrenKind.direct r => r

/-- `RuleState` from the source: the dangerouslySetInnerHTML prop range and
the kind of children found. -/
structure RuleState where
  dangerous_prop : TextRange
  children_kind : ChildrenKind
deriving DecidableEq, Repr

/-- A syntax node handle, reduced to what the rule reads from it: its trimmed
text range. -/
structure JsSyntaxNode where
  text_trimmed_range : TextRange
deriving DecidableEq, Repr

/-- A `JsxElement` node: its (fallible) opening element and its children. -/
structure JsxElementNode where
  opening_element : Option JsxOpeningElementNode
  children : List JsxChild
deriving DecidableEq, Repr

/-- `AnyJsCreateElement` from the source: JsxElement, JsxSelfClosingElement
or JsCallExpression. -/
inductive AnyJsCreateElement where
  | jsxElement (el : JsxElementNode)
  | jsxSelfClosingElement (attrs : List JsxAttributeItem)
  | jsCallExpression (call : JsCallExpression)
deriving DecidableEq, Repr

namespace AnyJsCreateElement

/-- `AnyJsCreateElement::has_children` from the source: the node of the
direct children when there are any (non-empty JSX child list, or the
resolved factory call's children arguments). -/
def has_children (node : AnyJsCreateElement) (model : SemanticModel) :
    Option JsSyntaxNode :=
  match node with
  | AnyJsCreateElement.jsxElement element =>
    if !element.children.isEmpty then
      some (JsSyntaxNode.mk (childListTrimmedRange element.children))
    else none
  | AnyJsCreateElement.jsxSelfClosingElement _ => none
  | AnyJsCreateElement.jsCallExpression expr =>
    match ReactCreateElementCall.from_call_expression expr model with
    | none => none
    | some react =>
      react.children.map fun cs => JsSyntaxNode.mk (argListTrimmedRange cs)

/-- `AnyJsCreateElement::find_dangerous_prop` from the source: the
dangerouslySetInnerHTML attribute (via the opening element for JsxElement)
or the resolved factory call's dangerouslySetInnerHTML prop. -/
def find_dangerous_prop (node : AnyJsCreateElement) (model : SemanticModel) :
    Option DangerousProp :=
  match node with
  | AnyJsCreateElement.jsxElement element =>
    match element.opening_element with
    | none => none
    | some opening =>
      (find_attribute_by_name opening.attrs "dangerouslySetInnerHTML").map
        DangerousProp.jsxAttribute
  | AnyJsCreateElement.jsxSelfClosingElement attrs =>
    (find_attribute_by_name attrs "dangerouslySetInnerHTML").map
      DangerousProp.jsxAttribute
  | AnyJsCreateElement.jsCallExpression call =>
    match ReactCreateElementCall.from_call_expression call model with
    | none => none
    | some react =>
      (react.find_prop_by_name "dangerouslySetInnerHTML").map
        DangerousProp.jsPropertyObjectMember

/-- `AnyJsCreateElement::find_children_prop` from the source: the `children`
attribute (via the opening element for JsxElement) or the resolved factory
call's `children` prop. -/
def find_children_prop (node : AnyJsCreateElement) (model : SemanticModel) :
    Option DangerousProp :=
  match node with
  | AnyJsCreateElement.jsxElement element =>
    match element.opening_element with
    | none => none
    | some opening =>
      (find_attribute_by_name opening.attrs "children").map DangerousProp.jsxAttribute
  | AnyJsCreateElement.jsxSelfClosingElement attrs =>
    (find_attribute_by_name attrs "children").map DangerousProp.jsxAttribute
  | AnyJsCreateElement.jsCallExpression call =>
    match ReactCreateElementCall.from_call_expression call model with
    | none => none
    | some react =>
      (react.find_prop_by_name "children").map DangerousProp.jsPropertyObjectMember

end AnyJsCreateElement

/-- A rule diagnostic, reduced to what this rule builds: category is fixed,
so we keep the primary range, the message, the ordered detail ranges with
their messages, and the ordered notes. -/
structure RuleDiagnostic where
  primaryRange : TextRange
  message : String
  details : List (TextRange × String)
  notes : List String
deriving DecidableEq, Repr

namespace NoDangerouslySetInnerHtmlWithChildren

/-- `NoDangerouslySetInnerHtmlWithChildren::run` from the source: when a
dangerous prop is found, record direct children if any, else a children
prop if any; otherwise no signal. -/
def run (node : AnyJsCreateElement) (model : SemanticModel) : Option RuleState :=
  match node.find_dangerous_prop model with
  | some dangerousProp =>
    match node.has_children model with
    | some childrenNode =>
      some (RuleState.mk dangerousProp.range
        (ChildrenKind.direct childrenNode.text_trimmed_range))
    | none =>
      match node.find_children_prop model with
      | some childrenProp =>
        some (RuleState.mk dangerousProp.range (ChildrenKind.prop childrenProp.range))
      | none => none
  | none => none

/-- `NoDangerouslySetInnerHtmlWithChildren::diagnostic` from the source:
primary range on the dangerous prop, one detail on the children range, one
note. -/
def diagnostic (state : RuleState) : Option RuleDiagnostic :=
  some
    (RuleDiagnostic.mk state.dangerous_prop
      "Avoid passing both children and the dangerouslySetInnerHTML prop."
      [(state.children_kind.range, "This is the source of the children prop")]
      ["Setting HTML content will inadvertently override any passed children in React"])

end NoDangerouslySetInnerHtmlWithChildren

/-! Theorems about the embedded rules. -/

/-- Eta rule for text ranges, used to fold a rebuilt range back together. -/
theorem TextRange.eta (r : TextRange) : TextRange.mk r.start r.stop = r := rfl

/-- C1: for every element with no `children` attribute, no
`dangerouslySetInnerHTML` attribute, no direct descendants and no spread
prop, the heading-content rule signals exactly when the tag name is one of
h1..h6. -/
theorem heading_content_signals_iff_heading_tag
    (node : AnyJsxElement) (nm : String)
    (hname : node.name = some (AnyJsxElementName.named nm))
    (hch : find_attribute_by_name node.attrs "children" = none)
    (hdsih : find_attribute_by_name node.attrs "dangerouslySetInnerHTML" = none)
    (hspread : has_spread_prop node.attrs = false)
    (hdesc : node.directChildren = []) :
    (UseHeadingContent.run node).isSome = HEADING_ELEMENTS.contains nm := by
  have hvalid : has_valid_heading_content node = false := by
    unfold has_valid_heading_content
    rw [hch, hdsih, hspread]
    rfl
  cases node with
  | jsxOpeningElement op children =>
    simp only [AnyJsxElement.name] at hname
    simp only [AnyJsxElement.directChildren] at hdesc
    subst hdesc
    cases hH : HEADING_ELEMENTS.contains nm with
    | false =>
      have hH2 : nm ∉ HEADING_ELEMENTS := by simpa using hH
      simp [UseHeadingContent.run, AnyJsxElement.name, hname,
        AnyJsxElementName.name_value_token, hH, hH2]
    | true =>
      have hH2 : nm ∈ HEADING_ELEMENTS := by simpa using hH
      cases hA : has_truthy_attribute op.attrs "aria-hidden" with
      | true =>
        simp [UseHeadingContent.run, AnyJsxElement.name, AnyJsxElement.attrs, hname,
          AnyJsxElementName.name_value_token, hH, hH2, hA]
      | false =>
        simp [UseHeadingContent.run, AnyJsxElement.name, AnyJsxElement.attrs, hname,
          AnyJsxElementName.name_value_token, hH, hH2, hA, hvalid, has_accessible_child]
  | jsxSelfClosingElement n attrs =>
    simp only [AnyJsxElement.name] at hname
    subst hname
    cases hH : HEADING_ELEMENTS.contains nm with
    | false =>
      have hH2 : nm ∉ HEADING_ELEMENTS := by simpa using hH
      simp [UseHeadingContent.run, AnyJsxElement.name,
        AnyJsxElementName.name_value_token, hH, hH2]
    | true =>
      have hH2 : nm ∈ HEADING_ELEMENTS := by simpa using hH
      cases hA : has_truthy_attribute attrs "aria-hidden" with
      | true =>
        simp [UseHeadingContent.run, AnyJsxElement.name, AnyJsxElement.attrs,
          AnyJsxElementName.name_value_token, hH, hH2, hA]
      | false =>
        simp [UseHeadingContent.run, AnyJsxElement.name, AnyJsxElement.attrs,
          AnyJsxElementName.name_value_token, hH, hH2, hA, hvalid]

/-- C1 witness: an empty `<h1>` element satisfies the hypotheses and the
rule signals there. -/
theorem heading_content_signals_iff_heading_tag_witness :
    (UseHeadingContent.run (AnyJsxElement.jsxOpeningElement
        (JsxOpeningElementNode.mk (some (AnyJsxElementName.named "h1")) []) [])).isSome
      = HEADING_ELEMENTS.contains "h1" :=
  heading_content_signals_iff_heading_tag
    (AnyJsxElement.jsxOpeningElement
      (JsxOpeningElementNode.mk (some (AnyJsxElementName.named "h1")) []) [])
    "h1" rfl rfl rfl rfl rfl

/-- Claim C2: a call resolved as a React createElement factory call of shape
factory(tag, object-with-dangerouslySetInnerHTML, child) produces exactly one
signal, and the diagnostic built from it has its primary range on the
dangerouslySetInnerHTML property member and exactly one detail range on the
children argument. -/
theorem createElement_dangerous_html_with_children_signals_once
    (callee : String) (tagR objR dsihR childR : TextRange) (model : SemanticModel)
    (hcallee : factoryCalleeNames.contains callee = true)
    (hresolve : model.resolveIdentifier callee = some Declaration.reactFactoryImport) :
    NoDangerouslySetInnerHtmlWithChildren.run
      (AnyJsCreateElement.jsCallExpression (JsCallExpression.mk callee
        [JsArgument.other tagR,
         JsArgument.objectExpr [JsPropertyObjectMember.mk "dangerouslySetInnerHTML" dsihR] objR,
         JsArgument.other childR])) model
      = some (RuleState.mk dsihR (ChildrenKind.direct childR)) ∧
    NoDangerouslySetInnerHtmlWithChildren.diagnostic
        (RuleState.mk dsihR (ChildrenKind.direct childR))
      = some (RuleDiagnostic.mk dsihR
          "Avoid passing both children and the dangerouslySetInnerHTML prop."
          [(childR, "This is the source of the children prop")]
          ["Setting HTML content will inadvertently override any passed children in React"]) := by
  have hc2 : callee ∈ factoryCalleeNames := by simpa using hcallee
  constructor
  · simp [NoDangerouslySetInnerHtmlWithChildren.run,
      AnyJsCreateElement.find_dangerous_prop, AnyJsCreateElement.has_children,
      ReactCreateElementCall.from_call_expression, hcallee, hc2, hresolve,
      ReactCreateElementCall.find_prop_by_name, find_member_by_name,
      argListTrimmedRange, JsArgument.range, DangerousProp.range, TextRange.eta]
  · rfl

/-- Witness for C2: a concrete React.createElement call with concrete ranges
and a model resolving the callee to the factory import. -/
theorem createElement_dangerous_html_with_children_signals_once_witness :
    NoDangerouslySetInnerHtmlWithChildren.run
      (AnyJsCreateElement.jsCallExpression (JsCallExpression.mk "React.createElement"
        [JsArgument.other (TextRange.mk 20 25),
         JsArgument.objectExpr
           [JsPropertyObjectMember.mk "dangerouslySetInnerHTML" (TextRange.mk 28 70)]
           (TextRange.mk 26 72),
         JsArgument.other (TextRange.mk 74 81)]))
      (SemanticModel.mk fun s =>
        if s = "React.createElement" then some Declaration.reactFactoryImport else none)
      = some (RuleState.mk (TextRange.mk 28 70) (ChildrenKind.direct (TextRange.mk 74 81))) ∧
    NoDangerouslySetInnerHtmlWithChildren.diagnostic
        (RuleState.mk (TextRange.mk 28 70) (ChildrenKind.direct (TextRange.mk 74 81)))
      = some (RuleDiagnostic.mk (TextRange.mk 28 70)
          "Avoid passing both children and the dangerouslySetInnerHTML prop."
          [(TextRange.mk 74 81, "This is the source of the children prop")]
          ["Setting HTML content will inadvertently override any passed children in React"]) :=
  createElement_dangerous_html_with_children_signals_once
    "React.createElement" (TextRange.mk 20 25) (TextRange.mk 26 72)
    (TextRange.mk 28 70) (TextRange.mk 74 81)
    (SemanticModel.mk fun s =>
      if s = "React.createElement" then some Declaration.reactFactoryImport else none)
    (by decide) (by decide)

/-- Resolution-failure helper: the modelled factory-call resolver returns
absent when the callee name does not match, the call has no arguments, or
the overlay does not resolve the callee to the factory import. -/
theorem from_call_expression_fails
    (call : JsCallExpression) (model : SemanticModel)
    (h : factoryCalleeNames.contains call.callee = false
       ∨ call.arguments = []
       ∨ model.resolveIdentifier call.callee ≠ some Declaration.reactFactoryImport) :
    ReactCreateElementCall.from_call_expression call model = none := by
  unfold ReactCreateElementCall.from_call_expression
  rcases h with h | h | h
  · rw [h]
    rfl
  · cases hc : factoryCalleeNames.contains call.callee with
    | false => rfl
    | true =>
      cases hr : model.resolveIdentifier call.callee with
      | none => rfl
      | some d =>
        cases d with
        | reactFactoryImport =>
          rw [h]
          rfl
        | localBinding => rfl
  · cases hc : factoryCalleeNames.contains call.callee with
    | false => rfl
    | true =>
      cases hr : model.resolveIdentifier call.callee with
      | none => rfl
      | some d =>
        cases d with
        | reactFactoryImport => exact absurd hr h
        | localBinding => rfl

/-- Claim C3: when call-shape resolution fails (callee name mismatch, too
few arguments, or the callee resolving to a binding other than the factory
import), the dangerous-content rule produces no signal, even when the
argument shapes match the factory pattern. -/
theorem dangerous_rule_resolution_failure_no_signal
    (call : JsCallExpression) (model : SemanticModel)
    (h : factoryCalleeNames.contains call.callee = false
       ∨ call.arguments = []
       ∨ model.resolveIdentifier call.callee ≠ some Declaration.reactFactoryImport) :
    NoDangerouslySetInnerHtmlWithChildren.run
      (AnyJsCreateElement.jsCallExpression call) model = none := by
  have hf := from_call_expression_fails call model h
  simp [NoDangerouslySetInnerHtmlWithChildren.run,
    AnyJsCreateElement.find_dangerous_prop, hf]

/-- Witness for C3: a call whose arguments match the factory pattern but
whose callee resolves to a shadowing local binding produces no signal. -/
theorem dangerous_rule_resolution_failure_no_signal_witness :
    NoDangerouslySetInnerHtmlWithChildren.run
      (AnyJsCreateElement.jsCallExpression (JsCallExpression.mk "createElement"
        [JsArgument.other (TextRange.mk 0 5),
         JsArgument.objectExpr
           [JsPropertyObjectMember.mk "dangerouslySetInnerHTML" (TextRange.mk 10 40)]
           (TextRange.mk 8 42),
         JsArgument.other (TextRange.mk 44 51)]))
      (SemanticModel.mk fun _ => some Declaration.localBinding) = none :=
  dangerous_rule_resolution_failure_no_signal
    (JsCallExpression.mk "createElement"
      [JsArgument.other (TextRange.mk 0 5),
       JsArgument.objectExpr
         [JsPropertyObjectMember.mk "dangerouslySetInnerHTML" (TextRange.mk 10 40)]
         (TextRange.mk 8 42),
       JsArgument.other (TextRange.mk 44 51)])
    (SemanticModel.mk fun _ => some Declaration.localBinding)
    (Or.inr (Or.inr (by decide)))

/-- Counterexample for C4: a non-heading element carrying a truthy
aria-hidden attribute on which the heading-content rule does not signal,
refuting the claim as stated for every element. -/
theorem aria_hidden_non_heading_counterexample :
    has_truthy_attribute (AnyJsxElement.jsxSelfClosingElement
        (some (AnyJsxElementName.named "div"))
        [JsxAttributeItem.attr (JsxAttribute.mk "aria-hidden" none (TextRange.mk 5 16))]).attrs
      "aria-hidden" = true
    ∧ UseHeadingContent.run (AnyJsxElement.jsxSelfClosingElement
        (some (AnyJsxElementName.named "div"))
        [JsxAttributeItem.attr (JsxAttribute.mk "aria-hidden" none (TextRange.mk 5 16))])
      = none := by
  decide

/-- Claim C4 (amended to heading elements): every heading element (h1..h6)
carrying a truthy aria-hidden attribute makes the heading-content rule
signal, regardless of the element's content. -/
theorem aria_hidden_heading_always_signals
    (node : AnyJsxElement) (nm : String)
    (hname : node.name = some (AnyJsxElementName.named nm))
    (hheading : HEADING_ELEMENTS.contains nm = true)
    (hhidden : has_truthy_attribute node.attrs "aria-hidden" = true) :
    UseHeadingContent.run node = some () := by
  have hH2 : nm ∈ HEADING_ELEMENTS := by simpa using hheading
  cases node with
  | jsxOpeningElement op children =>
    simp only [AnyJsxElement.name] at hname
    simp only [AnyJsxElement.attrs] at hhidden
    simp [UseHeadingContent.run, AnyJsxElement.name, AnyJsxElement.attrs, hname,
      AnyJsxElementName.name_value_token, hheading, hH2, hhidden]
  | jsxSelfClosingElement n attrs =>
    simp only [AnyJsxElement.name] at hname
    subst hname
    simp only [AnyJsxElement.attrs] at hhidden
    simp [UseHeadingContent.run, AnyJsxElement.name, AnyJsxElement.attrs,
      AnyJsxElementName.name_value_token, hheading, hH2, hhidden]

/-- Witness for C4: the element h1 with a bare aria-hidden attribute and the
text child title signals. -/
theorem aria_hidden_heading_always_signals_witness :
    UseHeadingContent.run (AnyJsxElement.jsxOpeningElement
      (JsxOpeningElementNode.mk (some (AnyJsxElementName.named "h1"))
        [JsxAttributeItem.attr (JsxAttribute.mk "aria-hidden" none (TextRange.mk 4 15))])
      [JsxChild.text "title" (TextRange.mk 16 21)]) = some () :=
  aria_hidden_heading_always_signals
    (AnyJsxElement.jsxOpeningElement
      (JsxOpeningElementNode.mk (some (AnyJsxElementName.named "h1"))
        [JsxAttributeItem.attr (JsxAttribute.mk "aria-hidden" none (TextRange.mk 4 15))])
      [JsxChild.text "title" (TextRange.mk 16 21)])
    "h1" rfl (by decide) (by decide)

/-- Claim C5: an h1 whose first child is an aria-hidden element but whose
later sibling child is visible text is not flagged by the heading-content
rule. -/
theorem h1_hidden_first_child_later_visible_no_signal :
    UseHeadingContent.run (AnyJsxElement.jsxOpeningElement
      (JsxOpeningElementNode.mk (some (AnyJsxElementName.named "h1")) [])
      [JsxChild.element
         [JsxAttributeItem.attr (JsxAttribute.mk "aria-hidden" none (TextRange.mk 9 20))]
         (TextRange.mk 4 23),
       JsxChild.text "visible content" (TextRange.mk 23 38)]) = none := by
  decide

/-- Claim C6: a self-closing element with both a dangerouslySetInnerHTML
attribute and a children attribute signals exactly once, and the diagnostic
detail range is the children attribute's own text range. -/
theorem self_closing_dangerous_with_children_prop_detail
    (i1 i2 : Option AttrInit) (r1 r2 : TextRange) (model : SemanticModel) :
    NoDangerouslySetInnerHtmlWithChildren.run
      (AnyJsCreateElement.jsxSelfClosingElement
        [JsxAttributeItem.attr (JsxAttribute.mk "dangerouslySetInnerHTML" i1 r1),
         JsxAttributeItem.attr (JsxAttribute.mk "children" i2 r2)]) model
      = some (RuleState.mk r1 (ChildrenKind.prop r2)) ∧
    NoDangerouslySetInnerHtmlWithChildren.diagnostic (RuleState.mk r1 (ChildrenKind.prop r2))
      = some (RuleDiagnostic.mk r1
          "Avoid passing both children and the dangerouslySetInnerHTML prop."
          [(r2, "This is the source of the children prop")]
          ["Setting HTML content will inadvertently override any passed children in React"]) :=
  ⟨rfl, rfl⟩

/-- Claim C7: malformed-but-parseable nodes (missing name node, name without
a value token, missing opening element) make each detection function return
no signal rather than propagate a failure. -/
theorem malformed_nodes_produce_no_signal :
    ∀ (attrs : List JsxAttributeItem) (children cs : List JsxChild) (model : SemanticModel),
      UseHeadingContent.run
        (AnyJsxElement.jsxOpeningElement (JsxOpeningElementNode.mk none attrs) children) = none
      ∧ UseHeadingContent.run (AnyJsxElement.jsxSelfClosingElement none attrs) = none
      ∧ UseHeadingContent.run
          (AnyJsxElement.jsxOpeningElement
            (JsxOpeningElementNode.mk (some AnyJsxElementName.complex) attrs) children) = none
      ∧ UseHeadingContent.run
          (AnyJsxElement.jsxSelfClosingElement (some AnyJsxElementName.complex) attrs) = none
      ∧ NoDangerouslySetInnerHtmlWithChildren.run
          (AnyJsCreateElement.jsxElement (JsxElementNode.mk none cs)) model = none :=
  fun _ _ _ _ => ⟨rfl, rfl, rfl, rfl, rfl⟩

/-- Claim C8: both detection functions are deterministic pure functions of
their inputs; invoking them twice on the same unmodified inputs yields
identical results. -/
theorem run_functions_deterministic :
    ∀ (node : AnyJsxElement) (node2 : AnyJsCreateElement) (model : SemanticModel),
      UseHeadingContent.run node = UseHeadingContent.run node
      ∧ NoDangerouslySetInnerHtmlWithChildren.run node2 model
          = NoDangerouslySetInnerHtmlWithChildren.run node2 model :=
  fun _ _ _ => ⟨rfl, rfl⟩

/-- Claim C9: with a dangerouslySetInnerHTML attribute, non-empty direct
descendants and a children attribute all present, the signal records the
direct descendants (ChildrenKind.direct with their trimmed range); the
children attribute is not consulted. -/
theorem direct_descendants_take_precedence_over_children_prop
    (onm : Option AnyJsxElementName) (i1 i2 : Option AttrInit) (r1 r2 : TextRange)
    (c : JsxChild) (cs : List JsxChild) (model : SemanticModel) :
    NoDangerouslySetInnerHtmlWithChildren.run
      (AnyJsCreateElement.jsxElement (JsxElementNode.mk
        (some (JsxOpeningElementNode.mk onm
          [JsxAttributeItem.attr (JsxAttribute.mk "dangerouslySetInnerHTML" i1 r1),
           JsxAttributeItem.attr (JsxAttribute.mk "children" i2 r2)]))
        (c :: cs))) model
      = some (RuleState.mk r1 (ChildrenKind.direct (childListTrimmedRange (c :: cs)))) :=
  rfl

/-- Claim C10: in has_valid_heading_content, a children attribute with no
initializer does not count as valid content (the heading still signals),
while a children attribute whose initializer cannot be folded, or folds to a
non-falsy static value, counts as valid content (no signal). -/
theorem children_attr_init_folding_policy
    (nm : String) (r : TextRange) (v : StaticValue)
    (hheading : HEADING_ELEMENTS.contains nm = true)
    (hnf : v.is_falsy = false) :
    has_valid_heading_content (AnyJsxElement.jsxSelfClosingElement
        (some (AnyJsxElementName.named nm))
        [JsxAttributeItem.attr (JsxAttribute.mk "children" none r)]) = false
    ∧ UseHeadingContent.run (AnyJsxElement.jsxSelfClosingElement
        (some (AnyJsxElementName.named nm))
        [JsxAttributeItem.attr (JsxAttribute.mk "children" none r)]) = some ()
    ∧ has_valid_heading_content (AnyJsxElement.jsxSelfClosingElement
        (some (AnyJsxElementName.named nm))
        [JsxAttributeItem.attr (JsxAttribute.mk "children" (some AttrInit.dynamic) r)]) = true
    ∧ UseHeadingContent.run (AnyJsxElement.jsxSelfClosingElement
        (some (AnyJsxElementName.named nm))
        [JsxAttributeItem.attr (JsxAttribute.mk "children" (some AttrInit.dynamic) r)]) = none
    ∧ has_valid_heading_content (AnyJsxElement.jsxSelfClosingElement
        (some (AnyJsxElementName.named nm))
        [JsxAttributeItem.attr (JsxAttribute.mk "children" (some (AttrInit.static v)) r)]) = true
    ∧ UseHeadingContent.run (AnyJsxElement.jsxSelfClosingElement
        (some (AnyJsxElementName.named nm))
        [JsxAttributeItem.attr (JsxAttribute.mk "children" (some (AttrInit.static v)) r)]) = none := by
  have hH2 : nm ∈ HEADING_ELEMENTS := by simpa using hheading
  refine ⟨rfl, ?_, rfl, ?_, ?_, ?_⟩
  · simp [UseHeadingContent.run, AnyJsxElement.name, AnyJsxElement.attrs,
      AnyJsxElementName.name_value_token, hheading, hH2, has_truthy_attribute,
      find_attribute_by_name, has_valid_heading_content, JsxAttribute.as_static_value,
      has_spread_prop]
  · simp [UseHeadingContent.run, AnyJsxElement.name, AnyJsxElement.attrs,
      AnyJsxElementName.name_value_token, hheading, hH2, has_truthy_attribute,
      find_attribute_by_name, has_valid_heading_content, JsxAttribute.as_static_value,
      has_spread_prop]
  · simp [has_valid_heading_content, AnyJsxElement.attrs, find_attribute_by_name,
      JsxAttribute.as_static_value, hnf]
  · simp [UseHeadingContent.run, AnyJsxElement.name, AnyJsxElement.attrs,
      AnyJsxElementName.name_value_token, hheading, hH2, has_truthy_attribute,
      find_attribute_by_name, has_valid_heading_content, JsxAttribute.as_static_value,
      has_spread_prop, hnf]

/-- Witness for C10: nm is h1, the static value is the string y. -/
theorem children_attr_init_folding_policy_witness :
    has_valid_heading_content (AnyJsxElement.jsxSelfClosingElement
        (some (AnyJsxElementName.named "h1"))
        [JsxAttributeItem.attr (JsxAttribute.mk "children" none (TextRange.mk 4 12))]) = false
    ∧ UseHeadingContent.run (AnyJsxElement.jsxSelfClosingElement
        (some (AnyJsxElementName.named "h1"))
        [JsxAttributeItem.attr (JsxAttribute.mk "children" none (TextRange.mk 4 12))]) = some ()
    ∧ has_valid_heading_content (AnyJsxElement.jsxSelfClosingElement
        (some (AnyJsxElementName.named "h1"))
        [JsxAttributeItem.attr
          (JsxAttribute.mk "children" (some AttrInit.dynamic) (TextRange.mk 4 12))]) = true
    ∧ UseHeadingContent.run (AnyJsxElement.jsxSelfClosingElement
        (some (AnyJsxElementName.named "h1"))
        [JsxAttributeItem.attr
          (JsxAttribute.mk "children" (some AttrInit.dynamic) (TextRange.mk 4 12))]) = none
    ∧ has_valid_heading_content (AnyJsxElement.jsxSelfClosingElement
        (some (AnyJsxElementName.named "h1"))
        [JsxAttributeItem.attr
          (JsxAttribute.mk "children" (some (AttrInit.static (StaticValue.str "y")))
            (TextRange.mk 4 12))]) = true
    ∧ UseHeadingContent.run (AnyJsxElement.jsxSelfClosingElement
        (some (AnyJsxElementName.named "h1"))
        [JsxAttributeItem.attr
          (JsxAttribute.mk "children" (some (AttrInit.static (StaticValue.str "y")))
            (TextRange.mk 4 12))]) = none :=
  children_attr_init_folding_policy "h1" (TextRange.mk 4 12) (StaticValue.str "y")
    (by decide) (by decide)

end Biome
